import Mathlib

/-!
Shallow embedding of the depthai demo application (depthai_demo.py) for
verification of its specification claims.  The embedded fragments are:
the median-filter cycling state of Demo.run and the m-key handler of
Demo.loop, the camera tuning dictionary and its keyboard handlers in
Demo.loop, the queue reads performed by Demo.loop, the module-level video
path validation, the App.stop reconnection wait, the CSV system-info
reporting of Demo._printSysInfo, the encoding-manager creation in
Demo.setup, and the multi-window trackbar synchronisation of
Trackbars.createTrackbar.
-/

/-! ### Median filter cycling (Demo.run lines 213-217, Demo.loop lines 340-342) -/

/-- The members of the external dai.MedianFilter enumeration whose names
start with KERNEL underscore or MEDIAN underscore, in binding registration
order, as collected by the list comprehension in Demo.run. -/
inductive MedianFilter
  | MEDIAN_OFF
  | KERNEL_3x3
  | KERNEL_5x5
  | KERNEL_7x7
deriving DecidableEq, Repr

/-- The rotating list of median-filter choices built in Demo.run. -/
def medianFilterList : List MedianFilter :=
  [.MEDIAN_OFF, .KERNEL_3x3, .KERNEL_5x5, .KERNEL_7x7]

/-- Element yielded at position n by itertools.cycle over a list l:
the element of l at index n modulo the length of l (d is a default that
is never reached for a nonempty list). -/
def cycleAt (l : List α) (d : α) (n : Nat) : α :=
  l.getD (n % l.length) d

/-- State of the median-filter cycle iterator in Demo: pos is the index
the cycle will yield on the next call, active is the filter currently set
in the depth configuration. -/
structure MedianState where
  pos : Nat
  active : MedianFilter
deriving DecidableEq, Repr

/-- Index at which the startup scan of Demo.run stops: the first cycle
position whose element equals the configured filter.  For a filter that
occurs in the list this is its index in the list. -/
def scanIdx (f : MedianFilter) : Nat :=
  medianFilterList.findIdx (fun x => x = f)

/-- State after the startup scan in Demo.run: the scan consumed the
elements up to and including the configured filter, so the iterator will
next yield the element one past it; the active filter is the configured
one. -/
def startupScan (f : MedianFilter) : MedianState :=
  { pos := scanIdx f + 1, active := f }

/-- Effect of one press of the m key in Demo.loop: take the next element
from the cycle and make it the active median filter via
updateDepthConfig. -/
def pressM (s : MedianState) : MedianState :=
  { pos := s.pos + 1, active := cycleAt medianFilterList .MEDIAN_OFF s.pos }

/-! ### Module-level video path validation (depthai_demo.py lines 28-33) -/

/-- Events of the startup sequence that follow the module-level checks:
Demo.setup constructs the PipelineManager and then opens the dai.Device. -/
inductive StartupEvent
  | pipelineCreated
  | deviceCreated
deriving DecidableEq, Repr

/-- The module-level check raises ValueError exactly when camera input is
not used and the resolved video path (after a possible youtube download)
does not exist. -/
def videoCheckError (useCamera resolvedVideoExists : Bool) : Bool :=
  !useCamera && !resolvedVideoExists

/-- Startup of the program: the module-level video check runs first; only
when it passes does Demo.setup create the pipeline manager and the
device.  Returns the performed events and the raised error, if any. -/
def startupTrace (useCamera resolvedVideoExists : Bool) :
    List StartupEvent × Option String :=
  if videoCheckError useCamera resolvedVideoExists then
    ([], some "Path does not exists!")
  else
    ([.pipelineCreated, .deviceCreated], none)

/-! ### Encoding manager creation (Demo.setup lines 181-184) -/

/-- Result of the encoding block of Demo.setup (inside the camera-or-sync
branch): the value of the encManager attribute, modelled as the encode
configuration it holds, and whether createEncoders was called on the
pipeline manager. -/
structure SetupEncResult where
  encManager : Option (List String)
  encodersAdded : Bool
deriving DecidableEq, Repr

/-- The encoding block of Demo.setup: encManager starts as None and an
EncodingManager is created, with encoders added to the pipeline, only
when the parsed encode list has length strictly greater than one. -/
def setupEncoding (encode : List String) : SetupEncResult :=
  if 1 < encode.length then
    { encManager := some encode, encodersAdded := true }
  else
    { encManager := none, encodersAdded := false }

/-! ### Camera tuning dictionary and its keyboard handlers (Demo.loop lines 344-383) -/

/-- The camera tuning dictionary of Demo.run: each entry is either None
(auto) or an integer value. -/
structure CameraConfig where
  exposure : Option Int
  sensitivity : Option Int
  saturation : Option Int
  contrast : Option Int
  brightness : Option Int
  sharpness : Option Int
deriving DecidableEq, Repr

/-- The camera-control keys dispatched in Demo.loop; other stands for any
key that matches none of the twelve control keys. -/
inductive CamKey
  | t | g | y | h | u | j | i | k | o | l | p | semicolon | other
deriving DecidableEq, Repr

/-- One camera-control keypress as handled in Demo.loop, translated
branch by branch from the key dispatch. -/
def applyKey : CamKey → CameraConfig → CameraConfig
  | .t, c =>
    { c with
      exposure := some (match c.exposure with
        | none => 10000
        | some e => if e = 1 then 500 else min (e + 500) 33000),
      sensitivity := if c.sensitivity = none then some 800 else c.sensitivity }
  | .g, c =>
    { c with
      exposure := some (match c.exposure with
        | none => 10000
        | some e => max (e - 500) 1),
      sensitivity := if c.sensitivity = none then some 800 else c.sensitivity }
  | .y, c =>
    { c with
      sensitivity := some (match c.sensitivity with
        | none => 800
        | some s => min (s + 50) 1600),
      exposure := if c.exposure = none then some 10000 else c.exposure }
  | .h, c =>
    { c with
      sensitivity := some (match c.sensitivity with
        | none => 800
        | some s => max (s - 50) 100),
      exposure := if c.exposure = none then some 10000 else c.exposure }
  | .u, c =>
    { c with saturation := some (match c.saturation with
        | none => 0
        | some v => min (v + 1) 10) }
  | .j, c =>
    { c with saturation := some (match c.saturation with
        | none => 0
        | some v => max (v - 1) (-10)) }
  | .i, c =>
    { c with contrast := some (match c.contrast with
        | none => 0
        | some v => min (v + 1) 10) }
  | .k, c =>
    { c with contrast := some (match c.contrast with
        | none => 0
        | some v => max (v - 1) (-10)) }
  | .o, c =>
    { c with brightness := some (match c.brightness with
        | none => 0
        | some v => min (v + 1) 10) }
  | .l, c =>
    { c with brightness := some (match c.brightness with
        | none => 0
        | some v => max (v - 1) (-10)) }
  | .p, c =>
    { c with sharpness := some (match c.sharpness with
        | none => 0
        | some v => min (v + 1) 4) }
  | .semicolon, c =>
    { c with sharpness := some (match c.sharpness with
        | none => 0
        | some v => max (v - 1) 0) }
  | .other, c => c

/-- A tuning entry is None or lies within the given bounds. -/
def optInB (v : Option Int) (lo hi : Int) : Bool :=
  match v with
  | none => true
  | some x => decide (lo ≤ x ∧ x ≤ hi)

/-- Each entry of the camera tuning dictionary is None or within its
bounds: exposure in 1..33000, sensitivity in 100..1600, saturation,
contrast and brightness in -10..10, sharpness in 0..4. -/
def configInBounds (c : CameraConfig) : Bool :=
  optInB c.exposure 1 33000 && optInB c.sensitivity 100 1600 &&
  optInB c.saturation (-10) 10 && optInB c.contrast (-10) 10 &&
  optInB c.brightness (-10) 10 && optInB c.sharpness 0 4

/-- Clamp of x to the interval lo..hi. -/
def clampTo (lo hi x : Int) : Int := max lo (min x hi)

/-- Spec-side description of one camera-control keypress, written from the
amended claim wording: a key acting on a None value sets it to its
default (10000 for exposure, 800 for sensitivity, 0 for the others);
otherwise an increment or decrement key moves its value by its fixed step
(500 for exposure, 50 for sensitivity, 1 for the others) clamped to the
bounds of the entry, except that the exposure increment key pressed when
exposure equals 1 sets exposure to 500; the exposure keys also set a None
sensitivity to 800 and the sensitivity keys set a None exposure to
10000. -/
def specApplyKey : CamKey → CameraConfig → CameraConfig
  | .t, c =>
    { c with
      exposure := some (match c.exposure with
        | none => 10000
        | some e => if e = 1 then 500 else clampTo 1 33000 (e + 500)),
      sensitivity := match c.sensitivity with
        | none => some 800
        | some s => some s }
  | .g, c =>
    { c with
      exposure := some (match c.exposure with
        | none => 10000
        | some e => clampTo 1 33000 (e - 500)),
      sensitivity := match c.sensitivity with
        | none => some 800
        | some s => some s }
  | .y, c =>
    { c with
      sensitivity := some (match c.sensitivity with
        | none => 800
        | some s => clampTo 100 1600 (s + 50)),
      exposure := match c.exposure with
        | none => some 10000
        | some e => some e }
  | .h, c =>
    { c with
      sensitivity := some (match c.sensitivity with
        | none => 800
        | some s => clampTo 100 1600 (s - 50)),
      exposure := match c.exposure with
        | none => some 10000
        | some e => some e }
  | .u, c =>
    { c with saturation := some (match c.saturation with
        | none => 0
        | some v => clampTo (-10) 10 (v + 1)) }
  | .j, c =>
    { c with saturation := some (match c.saturation with
        | none => 0
        | some v => clampTo (-10) 10 (v - 1)) }
  | .i, c =>
    { c with contrast := some (match c.contrast with
        | none => 0
        | some v => clampTo (-10) 10 (v + 1)) }
  | .k, c =>
    { c with contrast := some (match c.contrast with
        | none => 0
        | some v => clampTo (-10) 10 (v - 1)) }
  | .o, c =>
    { c with brightness := some (match c.brightness with
        | none => 0
        | some v => clampTo (-10) 10 (v + 1)) }
  | .l, c =>
    { c with brightness := some (match c.brightness with
        | none => 0
        | some v => clampTo (-10) 10 (v - 1)) }
  | .p, c =>
    { c with sharpness := some (match c.sharpness with
        | none => 0
        | some v => clampTo 0 4 (v + 1)) }
  | .semicolon, c =>
    { c with sharpness := some (match c.sharpness with
        | none => 0
        | some v => clampTo 0 4 (v - 1)) }
  | .other, c => c

/-! ### Queue reads of one iteration of Demo.loop (lines 277-334) -/

/-- A read that Demo.loop performs directly on an SDK-managed output
queue, tagged with the queue name. -/
inductive ReadOp
  | tryGetOne (q : String)
  | tryGetAllOf (q : String)
  | blockingGet (q : String)
deriving DecidableEq, Repr

/-- Whether a queue read is a blocking wait. -/
def ReadOp.isBlocking : ReadOp → Bool
  | .blockingGet _ => true
  | _ => false

/-- Configuration bits that select which queues Demo.loop reads:
useCamera and sync from the config, useNN, whether the spatial bounding
box queue exists (useNN and spatialBoundingBox), and whether the system
logger queue exists (report list nonempty). -/
structure LoopConf where
  useCamera : Bool
  sync : Bool
  useNN : Bool
  hasSbbQueue : Bool
  hasLogQueue : Bool
deriving DecidableEq, Repr

/-- The reads Demo.loop performs directly on SDK output queues in one
iteration, in program order: the sbb tryGet in the camera branch, the NN
output tryGet, the blocking host-frame get on the nnInput queue when a NN
packet arrived in video-input sync mode, and the system logger
tryGetAll. -/
def loopQueueReads (c : LoopConf) (nnPacketArrived : Bool) : List ReadOp :=
  (if c.useCamera && c.hasSbbQueue then [.tryGetOne "sbb"] else []) ++
  (if c.useNN then
    [.tryGetOne "nnOutput"] ++
    (if nnPacketArrived && !c.useCamera && c.sync then
      [.blockingGet "nnInput"] else [])
  else []) ++
  (if c.hasLogQueue then [.tryGetAllOf "systemLogger"] else [])

/-! ### App.stop reconnection wait (lines 578-587) -/

/-- Outcome of the App.stop polling loop. -/
inductive StopResult
  | ok
  | timeoutError
  | outOfFuel
deriving DecidableEq, Repr

/-- The App.stop polling loop: at iteration i it first evaluates the
while condition (elapsed time below 10 seconds, times sampled as e i) and
raises RuntimeError through the while-else branch when it fails; while it
holds, it breaks and returns normally as soon as the remembered MxId is
in the list of available devices (a i).  Fuel bounds the number of
modelled iterations. -/
def stopLoop (e : Nat → ℚ) (a : Nat → Bool) : Nat → Nat → StopResult
  | _, 0 => .outOfFuel
  | i, fuel + 1 =>
    if 10 ≤ e i then .timeoutError
    else if a i then .ok
    else stopLoop e a (i + 1) fuel

/-! ### CSV system-info report (Demo.setup lines 110-113, Demo.printSysInfo lines 440-487) -/

/-- The system information of one logger packet, with each field already
rendered to the string that str would print for it. -/
structure SysInfo where
  ddrUsed : String
  ddrTotal : String
  cmxUsed : String
  cmxTotal : String
  leonCssUsed : String
  leonCssTotal : String
  leonMssUsed : String
  leonMssTotal : String
  tempAvg : String
  tempCss : String
  tempMss : String
  tempUpa0 : String
  tempUpa1 : String
  cpuCssAvg : String
  cpuMssAvg : String
deriving DecidableEq, Repr

/-- The report groups requested on the command line. -/
structure ReportGroups where
  memory : Bool
  temp : Bool
  cpu : Bool
deriving DecidableEq, Repr

/-- Column names contributed by the memory group, in insertion order. -/
def memoryKeys : List String :=
  ["ddrUsed", "ddrTotal", "cmxUsed", "cmxTotal",
   "leonCssUsed", "leonCssTotal", "leonMssUsed", "leonMssTotal"]

/-- Column names contributed by the temperature group, in insertion
order. -/
def tempKeys : List String :=
  ["tempAvg", "tempCss", "tempMss", "tempUpa0", "tempUpa1"]

/-- Column names contributed by the CPU group, in insertion order. -/
def cpuKeys : List String :=
  ["cpuCssAvg", "cpuMssAvg"]

/-- The keys of the data dictionary built in printSysInfo: memory columns,
then temperature columns, then CPU columns, for the enabled groups. -/
def reportKeys (g : ReportGroups) : List String :=
  (if g.memory then memoryKeys else []) ++
  (if g.temp then tempKeys else []) ++
  (if g.cpu then cpuKeys else [])

/-- The values of the data dictionary built in printSysInfo, in the same
order as reportKeys. -/
def reportValues (g : ReportGroups) (i : SysInfo) : List String :=
  (if g.memory then
    [i.ddrUsed, i.ddrTotal, i.cmxUsed, i.cmxTotal,
     i.leonCssUsed, i.leonCssTotal, i.leonMssUsed, i.leonMssTotal]
  else []) ++
  (if g.temp then
    [i.tempAvg, i.tempCss, i.tempMss, i.tempUpa0, i.tempUpa1]
  else []) ++
  (if g.cpu then [i.cpuCssAvg, i.cpuMssAvg] else [])

/-- Comma-separated join, as the join call on a comma does in
printSysInfo. -/
def joinComma (l : List String) : String :=
  String.intercalate "," l

/-- One call of printSysInfo in report-file mode: the file is a list of
written lines; the tell call returns 0 exactly when no line has been
written yet, in which case the header of column names is emitted first;
then the data row is appended. -/
def printSysInfo (g : ReportGroups) (i : SysInfo) (file : List String) :
    List String :=
  (if file.isEmpty then file ++ [joinComma (reportKeys g)] else file) ++
  [joinComma (reportValues g i)]

/-- The report file contents after a sequence of logger packets, starting
from an empty file. -/
def sysInfoFold (g : ReportGroups) (infos : List SysInfo) : List String :=
  infos.foldl (fun f i => printSysInfo g i f) []

/-- The stem kept by the with_suffix call of Demo.setup on the final path
component: everything before the last dot, except that a name without a
dot, or a hidden-file name whose only dot is the leading one, is kept
whole. -/
def csvStem (name : String) : String :=
  let parts := name.splitOn "."
  if parts.length ≤ 1 || (parts.length == 2 && parts.headD "" == "") then
    name
  else
    String.intercalate "." parts.dropLast

/-- The report file name produced in Demo.setup: the requested name with
its suffix forced to .csv by the with_suffix call. -/
def csvSuffixName (name : String) : String :=
  csvStem name ++ ".csv"

/-! ### Trackbar synchronisation (Trackbars.createTrackbar lines 36-51) -/

/-- State of the trackbars registered under one trackbar name: the list
of registered windows, the per-window stored value kept in
Trackbars.instances, and the per-window position displayed by the
toolkit. -/
structure TBState where
  registered : List Nat
  stored : Nat → Int
  display : Nat → Int

/-- Registration of a window in Trackbars.createTrackbar: the window is
added to the instances dictionary with the default value and its
displayed position is set to the default. -/
def createTrackbarWin (s : TBState) (w : Nat) (dflt : Int) : TBState :=
  { registered := if w ∈ s.registered then s.registered else s.registered ++ [w],
    stored := fun x => if x = w then dflt else s.stored x,
    display := fun x => if x = w then dflt else s.display x }

/-- One trackbar change event: the user moves the slider of window w to
value v (so the displayed position of w becomes v), then the handler fn
runs: it invokes the user callback when v differs from the stored value
of w, and for every other registered window whose stored value differs
from v it sets both the stored value and the displayed position to v.
Returns the new state and whether the callback was invoked. -/
def trackbarEvent (s : TBState) (w : Nat) (v : Int) : TBState × Bool :=
  ({ registered := s.registered,
     stored := fun x =>
       if x ∈ s.registered ∧ x ≠ w ∧ s.stored x ≠ v then v else s.stored x,
     display := fun x =>
       if x = w then v
       else if x ∈ s.registered ∧ x ≠ w ∧ s.stored x ≠ v then v
       else s.display x },
   decide (s.stored w ≠ v))

/-- The empty trackbar state used before any registration. -/
def emptyTB : TBState :=
  { registered := [], stored := fun _ => 0, display := fun _ => 0 }

/-- Two windows 0 and 1 registered under one trackbar name, both with
default value 5. -/
def tbTwoWins : TBState :=
  createTrackbarWin (createTrackbarWin emptyTB 0 5) 1 5

/-- Scenario: starting from tbTwoWins, window 1 is dragged to 7, then
window 0 is dragged to 5. -/
def tbScenario : TBState :=
  (trackbarEvent (trackbarEvent tbTwoWins 1 7).1 0 5).1

/-- Sampled elapsed time used to exercise the App.stop loop: i seconds at
iteration i. -/
def elapsedLin (i : Nat) : ℚ := i

/-- Device availability used to exercise the App.stop loop: the device
reappears from iteration 2 on. -/
def availFrom2 (i : Nat) : Bool := decide (2 ≤ i)

/-- A concrete system-info sample used to exercise the report writer. -/
def sampleSysInfo : SysInfo :=
  ⟨"1", "2", "3", "4", "5", "6", "7", "8",
   "9", "10", "11", "12", "13", "14", "15"⟩

/-! ## Theorems -/

/-- Claim C4: when the demo is configured to read from a video file and
the resolved video path does not exist on disk, startup raises a
ValueError before any device or pipeline is created; when the path
exists, no such error is raised. -/
theorem video_check_c4 (ex : Bool) :
    ((startupTrace false ex).2.isSome ↔ ex = false) ∧
    (ex = false → (startupTrace false ex).1 = []) ∧
    (ex = true → (startupTrace false ex).2 = none) := by
  cases ex <;> simp [startupTrace, videoCheckError]

/-- Witness for C4: with a missing video file the error is raised and no
startup event happened; with an existing file no error is raised. -/
theorem video_check_c4_witness :
    (startupTrace false false).2.isSome = true ∧
    (startupTrace false false).1 = [] ∧
    (startupTrace false true).2 = none :=
  ⟨(video_check_c4 false).1.mpr rfl, (video_check_c4 false).2.1 rfl,
   (video_check_c4 true).2.2 rfl⟩

/-- Claim C7, amended: Demo.setup creates an EncodingManager, and adds
its encoders to the pipeline, exactly when the parsed encode list has
strictly more than one entry; with an empty or single-entry encode list,
encManager stays None. -/
theorem setup_encoding_c7 (encode : List String) :
    ((setupEncoding encode).encManager.isSome ↔ 1 < encode.length) ∧
    (setupEncoding encode).encodersAdded =
      (setupEncoding encode).encManager.isSome := by
  unfold setupEncoding
  split <;> simp_all

/-- Counterexample to C7 as stated: a single-entry encode list is
nonempty, yet Demo.setup leaves encManager as None because the code
tests for length strictly greater than one. -/
theorem setup_encoding_c7_counterexample :
    (setupEncoding ["color"]).encManager = none ∧
    ["color"] ≠ ([] : List String) := by
  decide

/-- Claim C9: for a nonempty choice list, the startup scan over the
cycled list finds a position yielding the configured filter exactly when
the filter occurs in the list; in that case the first hit is the index of
the filter in the list, which lies within one pass, and for a filter
outside the list no cycle position ever matches, so the scan never
terminates. -/
theorem median_scan_termination_c9 {α : Type} [DecidableEq α]
    (l : List α) (d f : α) (hne : l ≠ []) :
    ((∃ n, cycleAt l d n = f) ↔ f ∈ l) ∧
    (f ∈ l →
      l.findIdx (fun x => x = f) < l.length ∧
      cycleAt l d (l.findIdx (fun x => x = f)) = f ∧
      ∀ m, m < l.findIdx (fun x => x = f) → cycleAt l d m ≠ f) := by
  have hlen : 0 < l.length := List.length_pos.mpr hne
  have hmem : ∀ n, cycleAt l d n ∈ l := by
    intro n
    have h : n % l.length < l.length := Nat.mod_lt _ hlen
    rw [cycleAt, List.getD_eq_getElem l d h]
    exact List.getElem_mem h
  constructor
  · constructor
    · rintro ⟨n, rfl⟩
      exact hmem n
    · intro hf
      have hidx : l.findIdx (fun x => x = f) < l.length :=
        List.findIdx_lt_length_of_exists ⟨f, hf, by simp⟩
      refine ⟨l.findIdx (fun x => x = f), ?_⟩
      rw [cycleAt, Nat.mod_eq_of_lt hidx, List.getD_eq_getElem l d hidx]
      simpa using @List.findIdx_getElem _ (fun x => decide (x = f)) l hidx
  · intro hf
    have hidx : l.findIdx (fun x => x = f) < l.length :=
      List.findIdx_lt_length_of_exists ⟨f, hf, by simp⟩
    refine ⟨hidx, ?_, ?_⟩
    · rw [cycleAt, Nat.mod_eq_of_lt hidx, List.getD_eq_getElem l d hidx]
      simpa using @List.findIdx_getElem _ (fun x => decide (x = f)) l hidx
    · intro m hm
      have hmlt : m < l.length := Nat.lt_trans hm hidx
      rw [cycleAt, Nat.mod_eq_of_lt hmlt, List.getD_eq_getElem l d hmlt]
      simpa using List.not_of_lt_findIdx hm

/-- Witness for C9: for the concrete median-filter list the scan stops on
the configured filter KERNEL 5x5 at its own index. -/
theorem median_scan_termination_c9_witness :
    cycleAt medianFilterList .MEDIAN_OFF
      (medianFilterList.findIdx (fun x => x = .KERNEL_5x5)) =
      MedianFilter.KERNEL_5x5 :=
  ((median_scan_termination_c9 medianFilterList .MEDIAN_OFF
    .KERNEL_5x5 (by decide)).2 (by decide)).2.1

/-- Position of the cycle iterator after n presses of the m key. -/
theorem pressM_iterate_pos (s : MedianState) :
    ∀ n : Nat, (pressM^[n] s).pos = s.pos + n := by
  intro n
  induction n with
  | zero => simp
  | succ m ih =>
    rw [Function.iterate_succ_apply']
    simp only [pressM]
    omega

/-- Active filter after m + 1 presses of the m key: the cycle element at
the starting position advanced by m. -/
theorem pressM_iterate_active (s : MedianState) (m : Nat) :
    (pressM^[m + 1] s).active =
      cycleAt medianFilterList .MEDIAN_OFF (s.pos + m) := by
  rw [Function.iterate_succ_apply']
  simp only [pressM, pressM_iterate_pos]

/-- Claim C1: after the startup scan positions the cycle on the filter
currently configured in the depth config, the n-th press of the m key
while frames are displayed activates the list element n steps after the
starting filter, modulo the length of the choice list; the starting index
is the index of the configured filter. -/
theorem run_medianCycle_c1 (f : MedianFilter) (n : Nat) (h : 1 ≤ n) :
    medianFilterList.getD (scanIdx f) .MEDIAN_OFF = f ∧
    (pressM^[n] (startupScan f)).active =
      medianFilterList.getD
        ((scanIdx f + n) % medianFilterList.length) .MEDIAN_OFF := by
  constructor
  · cases f <;> decide
  · obtain ⟨m, rfl⟩ : ∃ m, n = m + 1 := ⟨n - 1, by omega⟩
    have hpos : (startupScan f).pos = scanIdx f + 1 := rfl
    rw [pressM_iterate_active, hpos]
    have harith : scanIdx f + 1 + m = scanIdx f + (m + 1) := by omega
    simp only [cycleAt, harith]

/-- Witness for C1: starting from the configured filter KERNEL 3x3, two
presses of the m key activate the element two steps after it. -/
theorem run_medianCycle_c1_witness :
    medianFilterList.getD (scanIdx .KERNEL_3x3) .MEDIAN_OFF =
      MedianFilter.KERNEL_3x3 ∧
    (pressM^[2] (startupScan .KERNEL_3x3)).active =
      medianFilterList.getD
        ((scanIdx .KERNEL_3x3 + 2) % medianFilterList.length) .MEDIAN_OFF :=
  run_medianCycle_c1 .KERNEL_3x3 2 (by decide)

/-- Counterexample to C2 as stated: with exposure at its lower bound 1
(an in-bounds configuration), the exposure increment key sets exposure to
500 rather than moving it by its step of 500 clamped to the bounds,
which would give 501. -/
theorem loop_cameraControls_c2_counterexample :
    configInBounds ⟨some 1, some 800, none, none, none, none⟩ = true ∧
    (applyKey .t ⟨some 1, some 800, none, none, none, none⟩).exposure =
      some 500 ∧
    (500 : Int) ≠ clampTo 1 33000 (1 + 500) := by
  decide

set_option maxHeartbeats 3200000 in
/-- Claim C2, amended: starting from a camera tuning dictionary whose
entries are None or within bounds, any camera-control keypress keeps
every entry None or within its bounds, and the update performed by the
code coincides with the spec-side description: steps of 500 for
exposure, 50 for sensitivity and 1 for the others, clamped to the
bounds, defaults 10000, 800 and 0 for a None value, with the single
exception that the exposure increment key pressed at exposure 1 sets
exposure to 500. -/
theorem loop_cameraControls_c2 (key : CamKey) (c : CameraConfig)
    (hc : configInBounds c = true) :
    configInBounds (applyKey key c) = true ∧
    applyKey key c = specApplyKey key c := by
  obtain ⟨e, s, sa, co, br, sh⟩ := c
  simp only [configInBounds, optInB, Bool.and_eq_true, decide_eq_true_eq] at hc
  cases key
  case t =>
    cases e <;> cases s <;>
      simp_all [applyKey, specApplyKey, configInBounds, optInB, clampTo] <;> omega
  case g =>
    cases e <;> cases s <;>
      simp_all [applyKey, specApplyKey, configInBounds, optInB, clampTo] <;> omega
  case y =>
    cases e <;> cases s <;>
      simp_all [applyKey, specApplyKey, configInBounds, optInB, clampTo] <;> omega
  case h =>
    cases e <;> cases s <;>
      simp_all [applyKey, specApplyKey, configInBounds, optInB, clampTo] <;> omega
  case u =>
    cases sa <;>
      simp_all [applyKey, specApplyKey, configInBounds, optInB, clampTo] <;> omega
  case j =>
    cases sa <;>
      simp_all [applyKey, specApplyKey, configInBounds, optInB, clampTo] <;> omega
  case i =>
    cases co <;>
      simp_all [applyKey, specApplyKey, configInBounds, optInB, clampTo] <;> omega
  case k =>
    cases co <;>
      simp_all [applyKey, specApplyKey, configInBounds, optInB, clampTo] <;> omega
  case o =>
    cases br <;>
      simp_all [applyKey, specApplyKey, configInBounds, optInB, clampTo] <;> omega
  case l =>
    cases br <;>
      simp_all [applyKey, specApplyKey, configInBounds, optInB, clampTo] <;> omega
  case p =>
    cases sh <;>
      simp_all [applyKey, specApplyKey, configInBounds, optInB, clampTo] <;> omega
  case semicolon =>
    cases sh <;>
      simp_all [applyKey, specApplyKey, configInBounds, optInB, clampTo] <;> omega
  case other =>
    refine ⟨?_, rfl⟩
    simp only [applyKey, configInBounds, optInB, Bool.and_eq_true,
      decide_eq_true_eq]
    exact hc

/-- Witness for C2: the saturation increment key applied to the all-None
dictionary keeps it in bounds and matches the spec-side description. -/
theorem loop_cameraControls_c2_witness :
    configInBounds (applyKey .u ⟨none, none, none, none, none, none⟩) = true ∧
    applyKey .u ⟨none, none, none, none, none, none⟩ =
      specApplyKey .u ⟨none, none, none, none, none, none⟩ :=
  loop_cameraControls_c2 .u ⟨none, none, none, none, none, none⟩ (by decide)

/-- Claim C10: after an exposure-adjusting keypress the sensitivity entry
is non-None and a None sensitivity was set to 800; after a
sensitivity-adjusting keypress the exposure entry is non-None and a None
exposure was set to 10000; hence after any of the four keys both entries
are non-None. -/
theorem camera_coupling_c10 (key : CamKey) (c : CameraConfig)
    (hk : key = .t ∨ key = .g ∨ key = .y ∨ key = .h) :
    (applyKey key c).exposure ≠ none ∧
    (applyKey key c).sensitivity ≠ none ∧
    ((key = .t ∨ key = .g) →
      (applyKey key c).sensitivity =
        (if c.sensitivity = none then some 800 else c.sensitivity)) ∧
    ((key = .y ∨ key = .h) →
      (applyKey key c).exposure =
        (if c.exposure = none then some 10000 else c.exposure)) := by
  obtain ⟨e, s, sa, co, br, sh⟩ := c
  rcases hk with rfl | rfl | rfl | rfl <;>
    cases e <;> cases s <;>
    simp [applyKey]

/-- Witness for C10: the exposure increment key on the all-None
dictionary leaves both exposure and sensitivity non-None. -/
theorem camera_coupling_c10_witness :
    (applyKey .t ⟨none, none, none, none, none, none⟩).exposure ≠ none ∧
    (applyKey .t ⟨none, none, none, none, none, none⟩).sensitivity ≠ none ∧
    ((CamKey.t = .t ∨ CamKey.t = .g) →
      (applyKey .t ⟨none, none, none, none, none, none⟩).sensitivity =
        (if (none : Option Int) = none then some 800 else none)) ∧
    ((CamKey.t = .y ∨ CamKey.t = .h) →
      (applyKey .t ⟨none, none, none, none, none, none⟩).exposure =
        (if (none : Option Int) = none then some 10000 else none)) :=
  camera_coupling_c10 .t ⟨none, none, none, none, none, none⟩ (Or.inl rfl)

/-- Counterexample to C3 as stated: with video input, sync mode and a
neural network in use, once a NN packet has arrived the loop performs a
blocking get on the nnInput host queue, an SDK-managed output queue. -/
theorem loop_nonblocking_c3_counterexample :
    ReadOp.blockingGet "nnInput" ∈
      loopQueueReads ⟨false, true, true, false, false⟩ true ∧
    (ReadOp.blockingGet "nnInput").isBlocking = true := by
  decide

/-- Claim C3, amended: every read Demo.loop performs on an SDK-managed
output queue is non-blocking, except that in video-input sync mode with a
neural network in use the loop performs a single blocking get on the
nnInput host queue after a NN result has arrived: any blocking read is
that one and occurs only under those conditions. -/
theorem loop_nonblocking_c3 (c : LoopConf) (arrived : Bool) (r : ReadOp)
    (hr : r ∈ loopQueueReads c arrived) (hb : r.isBlocking = true) :
    c.useCamera = false ∧ c.sync = true ∧ c.useNN = true ∧ arrived = true ∧
    r = .blockingGet "nnInput" := by
  obtain ⟨uc, sy, un, hs, hl⟩ := c
  cases r <;> cases uc <;> cases sy <;> cases un <;> cases hs <;>
    cases hl <;> cases arrived <;>
    simp_all [loopQueueReads, ReadOp.isBlocking]

/-- Witness for C3: the blocking nnInput read does occur in video-input
sync mode with a NN in use. -/
theorem loop_nonblocking_c3_witness :
    (⟨false, true, true, false, false⟩ : LoopConf).useCamera = false ∧
    (⟨false, true, true, false, false⟩ : LoopConf).sync = true ∧
    (⟨false, true, true, false, false⟩ : LoopConf).useNN = true ∧
    true = true ∧
    ReadOp.blockingGet "nnInput" = .blockingGet "nnInput" :=
  loop_nonblocking_c3 ⟨false, true, true, false, false⟩ true
    (.blockingGet "nnInput") (by decide) (by decide)

/-- Counterexample to C8 as stated: window 1 is dragged to 7 (its own
stored value stays 5), then window 0 is dragged to 5; window 1 is a
registered other window, its stored value 5 already equals the new
value, so its displayed position is not updated and remains 7 instead of
the new value 5. -/
theorem trackbar_sync_c8_counterexample :
    1 ∈ tbScenario.registered ∧
    tbScenario.stored 1 = 5 ∧
    tbScenario.display 1 = 7 ∧
    (7 : Int) ≠ 5 := by
  decide

/-- Claim C8, amended: after a trackbar change event in one window, every
other registered window has its stored value set to the new value, and
the user callback is invoked exactly when the new value differs from the
changed window's stored value; the displayed position of another window
is updated to the new value only when its stored value differed from the
new value, and is left unchanged otherwise. -/
theorem trackbar_sync_c8 (s : TBState) (w : Nat) (v : Int) (w2 : Nat)
    (hw : w2 ∈ s.registered) (hne : w2 ≠ w) :
    (trackbarEvent s w v).1.stored w2 = v ∧
    ((trackbarEvent s w v).2 = true ↔ s.stored w ≠ v) ∧
    (trackbarEvent s w v).1.display w2 =
      (if s.stored w2 = v then s.display w2 else v) := by
  by_cases h : s.stored w2 = v <;>
    simp [trackbarEvent, hw, hne, h]

/-- Witness for C8: dragging window 0 to 7 in the two-window state sets
the stored value of window 1 to 7, fires the callback exactly when 7
differs from the stored value of window 0, and updates the display of
window 1 because its stored value 5 differed from 7. -/
theorem trackbar_sync_c8_witness :
    (trackbarEvent tbTwoWins 0 7).1.stored 1 = 7 ∧
    ((trackbarEvent tbTwoWins 0 7).2 = true ↔ tbTwoWins.stored 0 ≠ 7) ∧
    (trackbarEvent tbTwoWins 0 7).1.display 1 =
      (if tbTwoWins.stored 1 = 7 then tbTwoWins.display 1 else 7) :=
  trackbar_sync_c8 tbTwoWins 0 7 1 (by decide) (by decide)

/-- Helper for C5: the App.stop loop returns normally when some iteration
reached before the deadline, and within the fuel, sees the device
available, every elapsed-time sample up to it is below 10 and the device
was unavailable at every earlier iteration. -/
theorem stopLoop_ok_of (e : Nat → ℚ) (a : Nat → Bool) :
    ∀ fuel s i, s ≤ i → i < s + fuel →
      (∀ j, s ≤ j → j < i → a j = false) →
      (∀ j, s ≤ j → j ≤ i → e j < 10) →
      a i = true → stopLoop e a s fuel = .ok := by
  intro fuel
  induction fuel with
  | zero => intro s i h1 h2 _ _ _; omega
  | succ n ih =>
    intro s i hsi hlt hano hel ha
    have hes : ¬ (10 ≤ e s) := not_le.mpr (hel s le_rfl hsi)
    rcases eq_or_lt_of_le hsi with rfl | hlt2
    · simp [stopLoop, hes, ha]
    · have has : a s = false := hano s le_rfl hlt2
      simp only [stopLoop, if_neg hes, has, Bool.false_eq_true, if_false]
      exact ih (s + 1) i hlt2 (by omega)
        (fun j hj1 hj2 => hano j (by omega) hj2)
        (fun j hj1 hj2 => hel j (by omega) hj2) ha

/-- Helper for C5: when the device is never available while the elapsed
time is below 10 seconds, the loop raises through its else branch once
some poll within the fuel is past the deadline. -/
theorem stopLoop_timeout_of (e : Nat → ℚ) (a : Nat → Bool)
    (hnever : ∀ i, e i < 10 → a i = false) :
    ∀ fuel s k, s ≤ k → k < s + fuel → 10 ≤ e k →
      stopLoop e a s fuel = .timeoutError := by
  intro fuel
  induction fuel with
  | zero => intro s k h1 h2 _; omega
  | succ n ih =>
    intro s k hsk hlt hek
    by_cases hes : 10 ≤ e s
    · simp [stopLoop, hes]
    · have has : a s = false := hnever s (not_le.mp hes)
      have hne : s ≠ k := by
        rintro rfl
        exact hes hek
      simp only [stopLoop, if_neg hes, has, Bool.false_eq_true, if_false]
      exact ih (s + 1) k (by omega) (by omega) hek

/-- Claim C5: in the App.stop wait loop with nondecreasing elapsed time,
if the previously connected device reappears at some poll before 10
seconds have elapsed, stop returns without raising; if the device never
appears while the elapsed time is below 10 seconds, stop raises
RuntimeError once a poll past the 10 second deadline is reached. -/
theorem app_stop_timeout_c5 (e : Nat → ℚ) (a : Nat → Bool) (fuel : Nat)
    (hmono : Monotone e) :
    (∀ i, i < fuel → a i = true → e i < 10 →
      (∀ j, j < i → a j = false) → stopLoop e a 0 fuel = .ok) ∧
    ((∀ i, e i < 10 → a i = false) →
      ∀ k, k < fuel → 10 ≤ e k → stopLoop e a 0 fuel = .timeoutError) := by
  constructor
  · intro i hif ha hei hprev
    exact stopLoop_ok_of e a fuel 0 i (Nat.zero_le i) (by omega)
      (fun j _ hj => hprev j hj)
      (fun j _ hj => lt_of_le_of_lt (hmono hj) hei) ha
  · intro hnever k hk hek
    exact stopLoop_timeout_of e a hnever fuel 0 k (Nat.zero_le k)
      (by omega) hek

/-- Witness for C5: with time advancing one second per poll and the
device reappearing at poll 2, stop returns normally. -/
theorem app_stop_timeout_c5_witness :
    stopLoop elapsedLin availFrom2 0 5 = .ok :=
  (app_stop_timeout_c5 elapsedLin availFrom2 5
      (fun j i h => by
        simpa [elapsedLin] using (Nat.cast_le.mpr h : (j : ℚ) ≤ i))).1
    2 (by decide) (by decide) (by norm_num [elapsedLin])
    (by decide)

/-- Helper for C6: once the report file is nonempty, further printSysInfo
calls only append data rows. -/
theorem printSysInfo_fold_acc (g : ReportGroups) :
    ∀ (infos : List SysInfo) (acc : List String), acc ≠ [] →
      infos.foldl (fun f i => printSysInfo g i f) acc =
        acc ++ infos.map (fun i => joinComma (reportValues g i)) := by
  intro infos
  induction infos with
  | nil =>
    intro acc h
    simp
  | cons i rest ih =>
    intro acc h
    obtain ⟨x, xs, rfl⟩ : ∃ x xs, acc = x :: xs := by
      cases acc with
      | nil => exact absurd rfl h
      | cons x xs => exact ⟨x, xs, rfl⟩
    rw [List.foldl_cons]
    have h1 : printSysInfo g i (x :: xs) =
        (x :: xs) ++ [joinComma (reportValues g i)] := by
      simp [printSysInfo]
    rw [h1, ih _ (by simp)]
    simp

/-- Claim C6: the report file name has its suffix forced to .csv; writing
a nonempty sequence of system-info packets into an empty report file
produces the header of column names exactly once, as the first line,
followed by one comma-joined data row per packet; a write into a
nonempty file appends only the data row while a write into the empty
file emits header then row; each data row has exactly the 8 memory, 5
temperature and 2 CPU columns of the enabled groups, in that fixed
order, matching the header columns in number. -/
theorem report_csv_c6 (g : ReportGroups) (infos : List SysInfo)
    (p : String) (i0 : SysInfo) (file : List String)
    (hinfos : infos ≠ []) (hfile : file ≠ []) :
    ".csv".data <:+ (csvSuffixName p).data ∧
    sysInfoFold g infos =
      joinComma (reportKeys g) ::
        infos.map (fun i => joinComma (reportValues g i)) ∧
    printSysInfo g i0 file = file ++ [joinComma (reportValues g i0)] ∧
    printSysInfo g i0 [] =
      [joinComma (reportKeys g), joinComma (reportValues g i0)] ∧
    (reportValues g i0).length =
      (if g.memory then 8 else 0) + (if g.temp then 5 else 0) +
        (if g.cpu then 2 else 0) ∧
    (reportKeys g).length = (reportValues g i0).length := by
  refine ⟨?_, ?_, ?_, ?_, ?_, ?_⟩
  · rw [csvSuffixName, String.data_append]
    exact List.suffix_append _ _
  · obtain ⟨i, rest, rfl⟩ : ∃ i rest, infos = i :: rest := by
      cases infos with
      | nil => exact absurd rfl hinfos
      | cons i rest => exact ⟨i, rest, rfl⟩
    rw [sysInfoFold, List.foldl_cons]
    have h1 : printSysInfo g i [] =
        [joinComma (reportKeys g), joinComma (reportValues g i)] := by
      simp [printSysInfo]
    rw [h1, printSysInfo_fold_acc g rest _ (by simp)]
    simp
  · obtain ⟨x, xs, rfl⟩ : ∃ x xs, file = x :: xs := by
      cases file with
      | nil => exact absurd rfl hfile
      | cons x xs => exact ⟨x, xs, rfl⟩
    simp [printSysInfo]
  · simp [printSysInfo]
  · obtain ⟨m, t, cp⟩ := g
    cases m <;> cases t <;> cases cp <;> simp [reportValues]
  · obtain ⟨m, t, cp⟩ := g
    cases m <;> cases t <;> cases cp <;>
      simp [reportKeys, reportValues, memoryKeys, tempKeys, cpuKeys]

/-- Witness for C6: with all three groups enabled, one sample packet
written to a fresh file and one to a nonempty file behave as stated. -/
theorem report_csv_c6_witness :
    ".csv".data <:+ (csvSuffixName "report.txt").data ∧
    sysInfoFold ⟨true, true, true⟩ [sampleSysInfo] =
      joinComma (reportKeys ⟨true, true, true⟩) ::
        [sampleSysInfo].map
          (fun i => joinComma (reportValues ⟨true, true, true⟩ i)) ∧
    printSysInfo ⟨true, true, true⟩ sampleSysInfo ["x"] =
      ["x"] ++ [joinComma (reportValues ⟨true, true, true⟩ sampleSysInfo)] ∧
    printSysInfo ⟨true, true, true⟩ sampleSysInfo [] =
      [joinComma (reportKeys ⟨true, true, true⟩),
       joinComma (reportValues ⟨true, true, true⟩ sampleSysInfo)] ∧
    (reportValues ⟨true, true, true⟩ sampleSysInfo).length =
      (if (true : Bool) then 8 else 0) + (if (true : Bool) then 5 else 0) +
        (if (true : Bool) then 2 else 0) ∧
    (reportKeys ⟨true, true, true⟩).length =
      (reportValues ⟨true, true, true⟩ sampleSysInfo).length :=
  report_csv_c6 ⟨true, true, true⟩ [sampleSysInfo] "report.txt"
    sampleSysInfo ["x"] (by decide) (by decide)
